import Mathlib

/-!
Verification of the frame-rendering core of `elements-rs` (a small Vulkan-based
3D engine) against its natural-language specification.

The development shallowly embeds the relevant Rust source:

* `src/renderer/renderer_vulkan/resources.rs` — texture/mesh upload, mipmap
  generation (`VulkanResources`);
* `src/renderer/renderer_vulkan/buffers.rs` — mesh store
  (`VulkanResourceManager`);
* `src/renderer/renderer_vulkan/mod.rs` — the per-frame `draw_frame` driver and
  physical-device selection (`VulkanRenderer::new`);
* `src/renderer/renderer_vulkan/render_context.rs` — the N-frames-in-flight
  bookkeeping (`ActiveFrame::execute_command_buffer`, `ActiveFrame::drop`).

Machine integers (`u32`, `usize`) are modelled as `Nat`, with an explicit
`% 2 ^ 32` where the source performs an `as u32` conversion.  Fallible Rust
code returning `Result` is modelled with `Except`; a Rust panic is modelled as
`none` in an outer `Option` layer.  GPU-side effects (allocation, command
execution) have no observable outcome in the embedded state beyond what the
source stores, and the outcomes of genuinely external operations (image
acquisition, queue submission, fence waits) are passed in as parameters.
-/

namespace ElementsRs

/-! ## Mipmap arithmetic (`resources.rs`) -/

/-- Rust `u32::ilog2`: the floor of the base-2 logarithm.  Rust's `ilog2` panics on
zero, which we record as `none`.  For positive `n` it agrees with `Nat.log2`. -/
def u32_ilog2 (n : Nat) : Option Nat :=
  if n = 0 then none else some (Nat.log2 n)

/-- One halving step of `generate_mipmaps`
(`resources.rs`: `if mip_width > 1 { mip_width / 2 } else { 1 }`). -/
def next_mip_dim (d : Nat) : Nat :=
  if d > 1 then d / 2 else 1

/-- Dimension of mip level `i` along one axis, starting from the level-0
dimension `d0`, as computed by the loop in `generate_mipmaps`. -/
def mip_dim (d0 : Nat) : Nat → Nat
  | 0 => d0
  | i + 1 => next_mip_dim (mip_dim d0 i)

/-- The slice of the physical-device format properties that `generate_mipmaps`
consults: whether the texture format (`R8G8B8A8_SRGB`) advertises
`SAMPLED_IMAGE_FILTER_LINEAR` among its optimal-tiling features. -/
structure DeviceFormatSupport where
  sampled_image_filter_linear : Bool
  deriving DecidableEq, Repr

/-- The fields of a created `vulkano` image that the embedded code observes:
its extent and its `mip_levels` from `ImageCreateInfo` (`create_texture_image`). -/
structure Image where
  width : Nat
  height : Nat
  mip_levels : Nat
  deriving DecidableEq, Repr

/-- One recorded `blit_image` region of `generate_mipmaps`: source level
`level - 1` at its full extent into level `level` at the halved extent. -/
structure BlitRegion where
  src_level : Nat
  dst_level : Nat
  src_extent : Nat × Nat
  dst_extent : Nat × Nat
  deriving DecidableEq, Repr

/-- The blits recorded by the loop `for level in 1..mip_levels`, starting at
level `level` with current dimensions `w × h`, for `k` remaining iterations. -/
def mip_blits (w h level : Nat) : Nat → List BlitRegion
  | 0 => []
  | k + 1 =>
    let next_w := next_mip_dim w
    let next_h := next_mip_dim h
    { src_level := level - 1
      dst_level := level
      src_extent := (w, h)
      dst_extent := (next_w, next_h) } :: mip_blits next_w next_h (level + 1) k

/-- Source `VulkanResources::generate_mipmaps`: errors when the format lacks
linear-filter support, otherwise records one blit per level `1..mip_levels`. -/
def generate_mipmaps (dev : DeviceFormatSupport) (image : Image) :
    Except String (List BlitRegion) :=
  if !dev.sampled_image_filter_linear then
    .error "Texture image format does not support linear blitting!"
  else
    .ok (mip_blits image.width image.height 1 (image.mip_levels - 1))

/-! ## The resource stores -/

/-- An `f32` scalar.  Vertex attributes are inert payload in every claim, so a
float is represented by its bit pattern. -/
structure F32 where
  bits : Nat
  deriving DecidableEq, Repr

/-- The `glam::Vec2` type. -/
structure Vec2 where
  x : F32
  y : F32
  deriving DecidableEq, Repr

/-- The `glam::Vec3` type. -/
structure Vec3 where
  x : F32
  y : F32
  z : F32
  deriving DecidableEq, Repr

/-- From `core/vertex.rs`: newtype around `glam::Vec3`. -/
structure ElmVec3 where
  val : Vec3
  deriving DecidableEq, Repr

/-- From `core/vertex.rs`: newtype around `glam::Vec2`. -/
structure ElmVec2 where
  val : Vec2
  deriving DecidableEq, Repr

/-- From `core/vertex.rs`: the position/color/texcoord vertex. -/
structure ElmVertex where
  position : ElmVec3
  color : ElmVec3
  tex_coord : ElmVec2
  deriving DecidableEq, Repr

/-- From `buffers.rs`: the position/color vertex. -/
structure MyVertex where
  position : Vec2
  color : Vec3
  deriving DecidableEq, Repr

/-- The `resources.rs` `GPUMesh`.  The device-local buffers hold exactly the data
copied from the staging buffers; the counts are `len() as u32`. -/
structure GPUMesh where
  vertex_buffer : List ElmVertex
  index_buffer : List Nat
  _vertex_count : Nat
  index_count : Nat
  deriving DecidableEq, Repr

/-- The `resources.rs` `GPUTexture`: the view refers to the created image (the
sampler configuration carries no claim-relevant state and is omitted). -/
structure GPUTexture where
  image_view : Image
  deriving DecidableEq, Repr

/-- The parts of `resources.rs` `VulkanResources` that uploads mutate. -/
structure VulkanResources where
  meshes : List GPUMesh
  textures : List GPUTexture
  deriving DecidableEq, Repr

/-- Source `VulkanResources::upload_mesh`: creates the vertex/index buffers by the
staging-and-copy protocol (a pure copy here) and pushes the mesh.  The source
returns `Result<()>`; its only fallible steps are external GPU allocations and
copies, so the embedding is total. -/
def VulkanResources.upload_mesh (st : VulkanResources)
    (vertices : List ElmVertex) (indices : List Nat) : VulkanResources :=
  let mesh : GPUMesh :=
    { vertex_buffer := vertices
      index_buffer := indices
      _vertex_count := vertices.length % 2 ^ 32
      index_count := indices.length % 2 ^ 32 }
  { st with meshes := st.meshes ++ [mesh] }

/-- Source `VulkanResources::get_mesh`: `self.meshes.get(mesh_id)`. -/
def VulkanResources.get_mesh (st : VulkanResources) (mesh_id : Nat) :
    Option GPUMesh :=
  st.meshes.get? mesh_id

/-- Source `VulkanResources::create_texture_image`: allocates the image with the given
`mip_levels`, copies the staging buffer into level 0, then runs
`generate_mipmaps`; any error propagates. -/
def create_texture_image (dev : DeviceFormatSupport) (width height mip_levels : Nat) :
    Except String Image :=
  let texture_image : Image := { width := width, height := height, mip_levels := mip_levels }
  match generate_mipmaps dev texture_image with
  | .error e => .error e
  | .ok _ => .ok texture_image

/-- Source `VulkanResources::upload_texture`: computes
`mip_levels = max(width, height).ilog2() + 1` (the `ilog2` panics on zero,
modelled as the outer `none`), creates the image and its view, and pushes the
texture on success. -/
def VulkanResources.upload_texture (dev : DeviceFormatSupport) (st : VulkanResources)
    (width height : Nat) : Option (Except String VulkanResources) :=
  match u32_ilog2 (max width height) with
  | none => none
  | some l =>
    match create_texture_image dev width height (l + 1) with
    | .error e => some (.error e)
    | .ok texture_image =>
      some (.ok { st with textures := st.textures ++ [{ image_view := texture_image }] })

/-- The `buffers.rs` `RenderMesh`. -/
structure RenderMesh where
  vertex_buffer : List MyVertex
  index_buffer : List Nat
  vertex_count : Nat
  index_count : Nat
  deriving DecidableEq, Repr

/-- The mesh store of `buffers.rs` `VulkanResourceManager`. -/
structure VulkanResourceManager where
  meshes : List RenderMesh
  deriving DecidableEq, Repr

/-- Source `VulkanResourceManager::create_mesh`: builds the buffers, pushes the mesh
and returns `self.meshes.len() - 1` as the mesh id. -/
def VulkanResourceManager.create_mesh (st : VulkanResourceManager)
    (vertices : List MyVertex) (indices : List Nat) : VulkanResourceManager × Nat :=
  let mesh : RenderMesh :=
    { vertex_buffer := vertices
      index_buffer := indices
      vertex_count := vertices.length % 2 ^ 32
      index_count := indices.length % 2 ^ 32 }
  let meshes := st.meshes ++ [mesh]
  ({ st with meshes := meshes }, meshes.length - 1)

/-- Source `VulkanResourceManager::get_mesh`. -/
def VulkanResourceManager.get_mesh (st : VulkanResourceManager) (mesh_id : Nat) :
    Option RenderMesh :=
  st.meshes.get? mesh_id

/-! ## The per-frame driver (`mod.rs` `VulkanRenderer::draw_frame`) -/

/-- The window state `draw_frame` reads (`window/mod.rs`): minimized flag and
drawable size. -/
structure Window where
  is_minimized : Bool
  width : Nat
  height : Nat
  deriving DecidableEq, Repr

/-- The observable operations `draw_frame` performs, in order.  `yield_cpu`
(a thread sleep or yield) is expressible but, as the proofs show, never
emitted by the source. -/
inductive Action where
  | cleanup_finished
  | recreate_swapchain
  | acquire_image
  | record_commands
  | submit
  | present_image
  | yield_cpu
  deriving DecidableEq, Repr

/-- Outcome of `acquire_next_image`, an external driver effect passed in as a
parameter. -/
inductive AcquireResult where
  | ok (image_index : Nat) (suboptimal : Bool)
  | out_of_date
  | other_error
  deriving DecidableEq, Repr

/-- Outcome of `then_signal_fence_and_flush` on the submit/present chain, an
external driver effect passed in as a parameter. -/
inductive SubmitResult where
  | ok
  | out_of_date
  | other_error
  deriving DecidableEq, Repr

/-- The mutable state of the `mod.rs` `RenderContext` that `draw_frame`
touches.  The swapchain, framebuffers and viewport are summarized by their
extents; `previous_frame_end` is the stored frame-completion future. -/
structure RenderContextS where
  swapchain_extent : Nat × Nat
  viewport_extent : Nat × Nat
  recreate_swapchain : Bool
  previous_frame_end : Option Unit
  deriving DecidableEq, Repr

/-- Result of one `draw_frame` call: the renderer's `render_context` field
afterwards, the returned `Result`, and the actions performed in order. -/
structure DrawOutcome where
  renderer : Option RenderContextS
  result : Except String Unit
  actions : List Action
  deriving Repr

/-- Source `VulkanRenderer::draw_frame` (`mod.rs`), with the external acquisition and
submission outcomes supplied as parameters:

1. minimized or zero-size window: log and return `Ok(())` untouched;
2. no render context: log and return `Ok(())`;
3. `cleanup_finished` on `previous_frame_end` (an error if it cannot be
   borrowed);
4. if `recreate_swapchain`: recreate the swapchain, framebuffers and viewport
   at the current window size and clear the flag;
5. acquire the next image — `OutOfDate` sets the flag and returns `Ok`, any
   other error is returned, and `suboptimal` sets the flag but proceeds;
6. record and submit the command buffer, then present — a submission-time
   `OutOfDate` sets the flag, resets `previous_frame_end` and returns `Ok`;
   any other submission error is returned. -/
def draw_frame (window : Window) (window_size : Nat × Nat)
    (acq : AcquireResult) (sub : SubmitResult)
    (rcx? : Option RenderContextS) : DrawOutcome :=
  if window.is_minimized || window.width == 0 || window.height == 0 then
    { renderer := rcx?, result := .ok (), actions := [] }
  else
    match rcx? with
    | none => { renderer := none, result := .ok (), actions := [] }
    | some rcx =>
      match rcx.previous_frame_end with
      | none =>
        { renderer := some rcx
          result := .error "Previous frame could not be borrowed"
          actions := [.cleanup_finished] }
      | some _ =>
        let (rcx, acts) :=
          if rcx.recreate_swapchain then
            ({ rcx with
                swapchain_extent := window_size
                viewport_extent := window_size
                recreate_swapchain := false },
              [Action.cleanup_finished, Action.recreate_swapchain])
          else (rcx, [Action.cleanup_finished])
        match acq with
        | .out_of_date =>
          { renderer := some { rcx with recreate_swapchain := true }
            result := .ok ()
            actions := acts ++ [.acquire_image] }
        | .other_error =>
          { renderer := some rcx
            result := .error "Failed to acquire next image"
            actions := acts ++ [.acquire_image] }
        | .ok _image_index suboptimal =>
          let rcx := if suboptimal then { rcx with recreate_swapchain := true } else rcx
          let acts := acts ++ [.acquire_image, .record_commands, .submit, .present_image]
          match sub with
          | .ok =>
            { renderer := some { rcx with previous_frame_end := some () }
              result := .ok ()
              actions := acts }
          | .out_of_date =>
            { renderer := some { rcx with
                recreate_swapchain := true
                previous_frame_end := some () }
              result := .ok ()
              actions := acts }
          | .other_error =>
            { renderer := some rcx
              result := .error "Failed to execute command buffer"
              actions := acts }

/-! ## N-frames-in-flight bookkeeping (`render_context.rs`) -/

/-- The `render_context.rs` `FrameState`: the slot's pending completion signal
(the descriptor sets bound to the slot are untouched by the embedded
operations and omitted). -/
structure FrameState where
  in_flight_future : Option Unit
  deriving DecidableEq, Repr

/-- The parts of `render_context.rs` `RenderContext` that the embedded
operations touch: the recreate flag, the per-slot frame states, and the
current frame index. -/
structure RenderContextN where
  recreate_swapchain : Bool
  frames : List FrameState
  current_frame : Nat
  deriving DecidableEq, Repr

/-- Source `ActiveFrame::execute_command_buffer` (`render_context.rs` lines 151-188):
errors if the builder or the acquire future is missing; otherwise submits and,
on success, stores the fence future in the current slot; a submission-time
`OutOfDate` sets the recreate flag and clears the slot; any other submission
error is returned. -/
def execute_command_buffer (builder : Option Unit) (acquire_future : Option Unit)
    (sub : SubmitResult) (rcx : RenderContextN) :
    RenderContextN × Except String Unit :=
  match builder with
  | none => (rcx, .error "Command buffer builder not initialized")
  | some _ =>
    match acquire_future with
    | none => (rcx, .error "Acquire future not complete")
    | some _ =>
      match sub with
      | .ok =>
        ({ rcx with frames := rcx.frames.set rcx.current_frame ⟨some ()⟩ }, .ok ())
      | .out_of_date =>
        ({ rcx with
            recreate_swapchain := true
            frames := rcx.frames.set rcx.current_frame ⟨none⟩ }, .ok ())
      | .other_error => (rcx, .error "Failed to execute command buffer")

/-- Result of `fence_future.wait(None)` in `ActiveFrame::drop`, an external
driver effect passed in as a parameter. -/
inductive FenceWaitResult where
  | ok
  | wait_error
  deriving DecidableEq, Repr

/-- Source `ActiveFrame::drop` (`render_context.rs` lines 191-209): if the current
slot holds a pending fence future, wait on it; on success clean up and advance
`current_frame` to `(current_frame + 1) % MAX_FRAMES_IN_FLIGHT`; on a wait
error only log.  A slot with no pending future leaves the index untouched.
`n` stands for the `MAX_FRAMES_IN_FLIGHT` constant. -/
def active_frame_drop (n : Nat) (wait : FenceWaitResult) (rcx : RenderContextN) :
    RenderContextN :=
  match (rcx.frames.get? rcx.current_frame).bind (fun f => f.in_flight_future) with
  | some _ =>
    match wait with
    | .ok => { rcx with current_frame := (rcx.current_frame + 1) % n }
    | .wait_error => rcx
  | none => rcx

/-- Modelled from the spec: the constant `MAX_FRAMES_IN_FLIGHT` is used
throughout the renderer but its defining declaration is not among the sources
here; the spec fixes the in-flight slot count at N = 2 («FrameSlot (one per
in-flight frame, fixed count N=2)»).  All theorems below are parametric in the
count. -/
def MAX_FRAMES_IN_FLIGHT : Nat := 2

/-- Modelled from the spec: how one scheduler update of the N-buffered variant
ends (its driving `draw_frame` is not among the sources here; spec §4.5).
Either the update is skipped before any `ActiveFrame` exists — minimized
window (step 1) or acquisition `OutOfDate` (step 3) — or it records and
submits, ending with `ActiveFrame::drop`: with the slot cleared when
submission hit `OutOfDate`, or with a successfully waited fence on a completed
update. -/
inductive UpdateOutcome where
  | skipped
  | submit_out_of_date
  | completed
  deriving DecidableEq, Repr

/-- Modelled from the spec: one update of the N-buffered scheduler (spec §4.5
steps 1-8), composed from the embedded source operations.  A skipped update
leaves the state untouched; the other outcomes run
`ActiveFrame::execute_command_buffer` followed by `ActiveFrame::drop`. -/
def scheduler_update (n : Nat) (o : UpdateOutcome) (rcx : RenderContextN) :
    RenderContextN :=
  match o with
  | .skipped => rcx
  | .submit_out_of_date =>
    active_frame_drop n .ok (execute_command_buffer (some ()) (some ()) .out_of_date rcx).1
  | .completed =>
    active_frame_drop n .ok (execute_command_buffer (some ()) (some ()) .ok rcx).1

/-- The frame indices used by the completed updates of a run, in order: a
completed update records and submits with the `current_frame` it observes at
entry. -/
def observed_frame_indices (n : Nat) : List UpdateOutcome → RenderContextN → List Nat
  | [], _ => []
  | .completed :: os, rcx =>
    rcx.current_frame :: observed_frame_indices n os (scheduler_update n .completed rcx)
  | o :: os, rcx => observed_frame_indices n os (scheduler_update n o rcx)

/-- The number of completed updates in a run. -/
def completed_count : List UpdateOutcome → Nat
  | [] => 0
  | .completed :: os => completed_count os + 1
  | _ :: os => completed_count os

/-- The scheduler state at startup: no pending futures, frame index 0
(`RenderContext` construction stores `current_frame: 0` and empty slots). -/
def init_context (n : Nat) : RenderContextN :=
  { recreate_swapchain := false
    frames := List.replicate n ⟨none⟩
    current_frame := 0 }

/-! ## Physical-device selection (`mod.rs` `VulkanRenderer::new`) -/

/-- The `vulkano` physical device types. -/
inductive PhysicalDeviceType where
  | discrete_gpu
  | integrated_gpu
  | virtual_gpu
  | cpu
  | other
  | unknown
  deriving DecidableEq, Repr

/-- One queue family, as observed by device selection: whether its flags
include `GRAPHICS` and whether the device can present to the target surface
from this family (`presentation_support(i).unwrap_or(false)`). -/
structure QueueFamily where
  graphics : Bool
  present : Bool
  deriving DecidableEq, Repr

/-- A physical device, as observed by device selection:
`supported_extensions().contains(&device_extensions)` collapsed to a flag, the
queue families, and the device type. -/
structure PhysicalDevice where
  device_type : PhysicalDeviceType
  supports_required_extensions : Bool
  queue_families : List QueueFamily
  deriving DecidableEq, Repr

/-- The ranking `min_by_key` uses (`mod.rs` lines 108-115). -/
def device_type_rank : PhysicalDeviceType → Nat
  | .discrete_gpu => 0
  | .integrated_gpu => 1
  | .virtual_gpu => 2
  | .cpu => 3
  | .other => 4
  | .unknown => 5

/-- Rust `Iterator::position` over the queue families, looking for one whose flags
include `GRAPHICS` and which supports presentation; `i` is the running index. -/
def position_graphics_present : List QueueFamily → Nat → Option Nat
  | [], _ => none
  | q :: qs, i =>
    if q.graphics && q.present then some i else position_graphics_present qs (i + 1)

/-- The queue-family lookup inside the `filter_map` of device selection. -/
def find_queue_family (p : PhysicalDevice) : Option Nat :=
  position_graphics_present p.queue_families 0

/-- The candidate list after `filter` (extension support) and `filter_map`
(graphics+present queue family), in enumeration order. -/
def candidate_devices (devices : List PhysicalDevice) : List (PhysicalDevice × Nat) :=
  (devices.filter (fun p => p.supports_required_extensions)).filterMap
    (fun p => (find_queue_family p).map (fun i => (p, i)))

/-- Rust's `Iterator::min_by_key`: the element with the minimum key, the
earliest one on ties. -/
def min_by_key_first {α : Type} (key : α → Nat) : List α → Option α
  | [] => none
  | x :: xs =>
    match min_by_key_first key xs with
    | none => some x
    | some y => if key x ≤ key y then some x else some y

/-- The device-selection pipeline of `VulkanRenderer::new` (lines 94-115). -/
def select_physical_device (devices : List PhysicalDevice) :
    Option (PhysicalDevice × Nat) :=
  min_by_key_first (fun pq => device_type_rank pq.1.device_type)
    (candidate_devices devices)

/-- The `.ok_or("No suitable physical device found")?` on the selection: with
no candidate, `VulkanRenderer::new` returns this error and startup aborts. -/
def select_physical_device_or_error (devices : List PhysicalDevice) :
    Except String (PhysicalDevice × Nat) :=
  match select_physical_device devices with
  | some r => .ok r
  | none => .error "No suitable physical device found"

/-! ## Helper lemmas -/

lemma get?_set_of_lt {α : Type} (l : List α) (n : Nat) (a : α) (h : n < l.length) :
    (l.set n a).get? n = some a := by
  rw [List.get?_set_eq, List.get?_eq_get h]
  rfl

/-! ## C2: mip level count of an uploaded texture -/

/-- C2: for every texture upload of width `W` and height `H` (with
`max W H ≥ 1`, the domain on which `floor (log2 (max W H))` is defined — see
C10 for the zero case) on a device whose format supports linear blits, the
created image stored in the texture registry has
`floor (log2 (max W H)) + 1` mip levels. -/
theorem upload_texture_mip_level_count (dev : DeviceFormatSupport) (st : VulkanResources)
    (width height : Nat) (hwh : 1 ≤ max width height)
    (hsupp : dev.sampled_image_filter_linear = true) :
    ∃ st', VulkanResources.upload_texture dev st width height = some (.ok st')
      ∧ (st'.textures.get? st.textures.length).map (fun t => t.image_view.mip_levels)
          = some (Nat.log 2 (max width height) + 1) := by
  have hne : max width height ≠ 0 := by omega
  refine ⟨{ st with textures := st.textures ++
      [{ image_view := ⟨width, height, Nat.log2 (max width height) + 1⟩ }] }, ?_, ?_⟩
  · simp [VulkanResources.upload_texture, u32_ilog2, hne, create_texture_image,
      generate_mipmaps, hsupp]
  · simp only [List.get?_concat_length, Option.map_some']
    rw [Nat.log2_eq_log_two]

/-- C2 witness: a 512×256 upload yields 10 mip levels. -/
theorem upload_texture_mip_level_count_witness :
    ∃ st', VulkanResources.upload_texture ⟨true⟩ ⟨[], []⟩ 512 256 = some (.ok st')
      ∧ (st'.textures.get? 0).map (fun t => t.image_view.mip_levels) = some 10 := by
  obtain ⟨st', h1, h2⟩ :=
    upload_texture_mip_level_count ⟨true⟩ ⟨[], []⟩ 512 256 (by decide) rfl
  refine ⟨st', h1, ?_⟩
  have h9 : Nat.log 2 512 = 9 := by
    rw [show (512 : Nat) = 2 ^ 9 by norm_num, Nat.log_pow (by norm_num)]
  simpa [h9] using h2

/-! ## C7: mip dimensions halve, clamped at 1 -/

lemma mip_dim_shift (d0 : Nat) : ∀ i, mip_dim (next_mip_dim d0) i = mip_dim d0 (i + 1)
  | 0 => rfl
  | i + 1 => congrArg next_mip_dim (mip_dim_shift d0 i)

lemma mip_blits_dst_extents (k : Nat) : ∀ w h s : Nat,
    (mip_blits w h s k).map (fun b => b.dst_extent)
      = (List.range k).map (fun j => (mip_dim w (j + 1), mip_dim h (j + 1))) := by
  induction k with
  | zero => intro w h s; simp [mip_blits]
  | succ k ih =>
    intro w h s
    simp only [mip_blits, List.map_cons]
    rw [List.range_succ_eq_map, List.map_cons, List.map_map,
      ih (next_mip_dim w) (next_mip_dim h) (s + 1)]
    refine congrArg₂ _ rfl ?_
    refine List.map_congr_left fun j _ => ?_
    simp [Function.comp_apply, mip_dim_shift, Nat.succ_eq_add_one]

/-- C7: every step of `generate_mipmaps` halves each axis with floor division,
clamped to a minimum of 1: level `i + 1`'s dimension is
`max 1 (level i dimension / 2)`, the recorded blits target exactly those
extents, and a 3×3 level 0 yields level-1 dimensions (1, 1). -/
theorem mip_dimension_halving :
    (∀ d0 i : Nat, mip_dim d0 (i + 1) = max 1 (mip_dim d0 i / 2))
    ∧ (∀ (dev : DeviceFormatSupport) (w h levels : Nat),
        dev.sampled_image_filter_linear = true →
        (generate_mipmaps dev ⟨w, h, levels⟩).map (fun bl => bl.map (fun b => b.dst_extent))
          = .ok ((List.range (levels - 1)).map
              (fun j => (mip_dim w (j + 1), mip_dim h (j + 1)))))
    ∧ mip_dim 3 1 = 1 := by
  refine ⟨?_, ?_, by decide⟩
  · intro d0 i
    have h : mip_dim d0 (i + 1) = next_mip_dim (mip_dim d0 i) := rfl
    rw [h]
    unfold next_mip_dim
    split <;> omega
  · intro dev w h levels hs
    simp only [generate_mipmaps, hs, Bool.not_true, Bool.false_eq_true, if_false,
      Except.map]
    rw [mip_blits_dst_extents (levels - 1) w h 1]

/-- C7 witness: on a supporting device, a 3×3 image with 2 levels records a
single blit with destination extent (1, 1). -/
theorem mip_dimension_halving_witness :
    (generate_mipmaps ⟨true⟩ ⟨3, 3, 2⟩).map (fun bl => bl.map (fun b => b.dst_extent))
      = .ok [(1, 1)] := by
  rw [mip_dimension_halving.2.1 ⟨true⟩ 3 3 2 rfl]
  rfl

/-! ## C9: texture upload fails exactly on missing linear-blit support -/

/-- C9: for a texture upload whose mip-level computation is defined
(`max W H ≥ 1`, see C10), the upload returns an error — leaving the texture
out of the store — if and only if the image format does not advertise
linear-filter (linear-blit) support; with support it succeeds and appends
exactly one texture. -/
theorem upload_texture_error_iff_no_linear_blit (dev : DeviceFormatSupport)
    (st : VulkanResources) (width height : Nat) (hwh : 1 ≤ max width height) :
    ((∃ e, VulkanResources.upload_texture dev st width height = some (.error e))
        ↔ dev.sampled_image_filter_linear = false)
    ∧ (dev.sampled_image_filter_linear = false →
        VulkanResources.upload_texture dev st width height
          = some (.error "Texture image format does not support linear blitting!"))
    ∧ (dev.sampled_image_filter_linear = true →
        ∃ st', VulkanResources.upload_texture dev st width height = some (.ok st')
          ∧ st'.textures.length = st.textures.length + 1) := by
  have hne : max width height ≠ 0 := by omega
  obtain ⟨b⟩ := dev
  cases b <;>
    simp [VulkanResources.upload_texture, u32_ilog2, hne, create_texture_image,
      generate_mipmaps]

/-- C9 witness: a 4×4 upload fails on a device without linear-blit support and
succeeds, appending one texture, on a device with it. -/
theorem upload_texture_error_iff_witness :
    (VulkanResources.upload_texture ⟨false⟩ ⟨[], []⟩ 4 4
        = some (.error "Texture image format does not support linear blitting!"))
    ∧ ∃ st', VulkanResources.upload_texture ⟨true⟩ ⟨[], []⟩ 4 4 = some (.ok st')
        ∧ st'.textures.length = 1 := by
  refine ⟨(upload_texture_error_iff_no_linear_blit ⟨false⟩ ⟨[], []⟩ 4 4 (by decide)).2.1 rfl, ?_⟩
  obtain ⟨st', h1, h2⟩ :=
    (upload_texture_error_iff_no_linear_blit ⟨true⟩ ⟨[], []⟩ 4 4 (by decide)).2.2 rfl
  exact ⟨st', h1, by simpa using h2⟩

/-! ## C10: zero-size texture uploads panic in the mip computation -/

/-- C10: calling `upload_texture` with width 0 and height 0 reaches the
`ilog2`-of-zero panic (the outer `none`): the failure never surfaces through
the returned `Result`.  For every other input the level-count expression is
defined and the call returns normally. -/
theorem upload_texture_zero_size_panics (dev : DeviceFormatSupport)
    (st : VulkanResources) :
    VulkanResources.upload_texture dev st 0 0 = none
    ∧ ∀ width height : Nat, 1 ≤ max width height →
        ∃ levels, u32_ilog2 (max width height) = some levels
          ∧ VulkanResources.upload_texture dev st width height ≠ none := by
  constructor
  · simp [VulkanResources.upload_texture, u32_ilog2]
  · intro w h hwh
    have hne : max w h ≠ 0 := by omega
    refine ⟨Nat.log2 (max w h), by simp [u32_ilog2, hne], ?_⟩
    simp only [VulkanResources.upload_texture, u32_ilog2, hne, if_false]
    split <;> simp

/-- C10 witness: the panic at 0×0, and a defined level count at 512×256. -/
theorem upload_texture_zero_size_witness :
    VulkanResources.upload_texture ⟨true⟩ ⟨[], []⟩ 0 0 = none
    ∧ ∃ levels, u32_ilog2 (max 512 256) = some levels
        ∧ VulkanResources.upload_texture ⟨true⟩ ⟨[], []⟩ 512 256 ≠ none :=
  ⟨(upload_texture_zero_size_panics ⟨true⟩ ⟨[], []⟩).1,
    (upload_texture_zero_size_panics ⟨true⟩ ⟨[], []⟩).2 512 256 (by decide)⟩

/-! ## C6: mesh count round-trip -/

/-- A concrete vertex value for counterexamples and witnesses. -/
def mv0 : MyVertex :=
  { position := ⟨⟨0⟩, ⟨0⟩⟩, color := ⟨⟨0⟩, ⟨0⟩, ⟨0⟩⟩ }

/-- C6 counterexample: uploading a mesh of 2^32 vertices stores
`vertices.len() as u32 = 0`, so querying it back does not return the original
vertex count. -/
theorem mesh_roundtrip_counterexample :
    ¬ ((((VulkanResourceManager.create_mesh ⟨[]⟩ (List.replicate (2 ^ 32) mv0) []).1).get_mesh
          ((VulkanResourceManager.create_mesh ⟨[]⟩ (List.replicate (2 ^ 32) mv0) []).2)).map
        (fun m => m.vertex_count)
        = some (List.replicate (2 ^ 32) mv0).length) := by
  intro h
  have hgen : ∀ vs : List MyVertex,
      (((VulkanResourceManager.create_mesh ⟨[]⟩ vs []).1).get_mesh
          ((VulkanResourceManager.create_mesh ⟨[]⟩ vs []).2)).map
        (fun m => m.vertex_count) = some (vs.length % 2 ^ 32) := fun vs => rfl
  have h2 := (hgen (List.replicate (2 ^ 32) mv0)).symm.trans h
  rw [List.length_replicate, Nat.mod_self] at h2
  simp at h2

/-- C6 amended: for every mesh uploaded with `V < 2^32` vertices and
`I < 2^32` indices (the counts are stored as `u32`), querying the mesh back
from the store returns `vertex_count = V` and `index_count = I` unchanged —
in both the `VulkanResourceManager` store of `buffers.rs` and the
`VulkanResources` store of `resources.rs`. -/
theorem mesh_roundtrip (st : VulkanResourceManager) (vertices : List MyVertex)
    (indices : List Nat) (hv : vertices.length < 2 ^ 32) (hi : indices.length < 2 ^ 32) :
    (((VulkanResourceManager.create_mesh st vertices indices).1).get_mesh
        ((VulkanResourceManager.create_mesh st vertices indices).2)).map
      (fun m => (m.vertex_count, m.index_count)) = some (vertices.length, indices.length)
    ∧ ∀ (r : VulkanResources) (vs : List ElmVertex) (idxs : List Nat),
        vs.length < 2 ^ 32 → idxs.length < 2 ^ 32 →
        ((VulkanResources.upload_mesh r vs idxs).get_mesh r.meshes.length).map
          (fun m => (m._vertex_count, m.index_count)) = some (vs.length, idxs.length) := by
  constructor
  · simp only [VulkanResourceManager.create_mesh, VulkanResourceManager.get_mesh,
      List.length_append, List.length_cons, List.length_nil, Nat.add_sub_cancel]
    rw [List.get?_concat_length]
    simp only [Option.map_some', Option.some.injEq, Prod.mk.injEq]
    exact ⟨Nat.mod_eq_of_lt hv, Nat.mod_eq_of_lt hi⟩
  · intro r vs idxs hv' hi'
    simp only [VulkanResources.upload_mesh, VulkanResources.get_mesh]
    rw [List.get?_concat_length]
    simp only [Option.map_some', Option.some.injEq, Prod.mk.injEq]
    exact ⟨Nat.mod_eq_of_lt hv', Nat.mod_eq_of_lt hi'⟩

/-- C6 witness: a 3-vertex, 3-index mesh round-trips to (3, 3). -/
theorem mesh_roundtrip_witness :
    (((VulkanResourceManager.create_mesh ⟨[]⟩ [mv0, mv0, mv0] [0, 1, 2]).1).get_mesh
        ((VulkanResourceManager.create_mesh ⟨[]⟩ [mv0, mv0, mv0] [0, 1, 2]).2)).map
      (fun m => (m.vertex_count, m.index_count)) = some (3, 3) := by
  have h := (mesh_roundtrip ⟨[]⟩ [mv0, mv0, mv0] [0, 1, 2]
    (by norm_num) (by norm_num)).1
  simpa using h

/-! ## C1: the frame index cycles 0, 1, ..., N-1, 0, ... -/

lemma scheduler_update_skipped (n : Nat) (rcx : RenderContextN) :
    scheduler_update n .skipped rcx = rcx := rfl

lemma scheduler_update_submit_ood (n : Nat) (rcx : RenderContextN)
    (hcur : rcx.current_frame < rcx.frames.length) :
    scheduler_update n .submit_out_of_date rcx
      = { rcx with
          recreate_swapchain := true
          frames := rcx.frames.set rcx.current_frame ⟨none⟩ } := by
  simp only [scheduler_update, execute_command_buffer, active_frame_drop]
  rw [get?_set_of_lt _ _ _ hcur]
  rfl

lemma scheduler_update_completed (n : Nat) (rcx : RenderContextN)
    (hcur : rcx.current_frame < rcx.frames.length) :
    scheduler_update n .completed rcx
      = { rcx with
          frames := rcx.frames.set rcx.current_frame ⟨some ()⟩
          current_frame := (rcx.current_frame + 1) % n } := by
  simp only [scheduler_update, execute_command_buffer, active_frame_drop]
  rw [get?_set_of_lt _ _ _ hcur]
  rfl

lemma observed_frame_indices_eq (n : Nat) (hn : 0 < n) (os : List UpdateOutcome) :
    ∀ rcx : RenderContextN, rcx.frames.length = n → rcx.current_frame < n →
    observed_frame_indices n os rcx
      = (List.range (completed_count os)).map (fun k => (rcx.current_frame + k) % n) := by
  induction os with
  | nil => intro rcx _ _; simp [observed_frame_indices, completed_count]
  | cons o os ih =>
    intro rcx hlen hcur
    cases o with
    | skipped =>
      show observed_frame_indices n os (scheduler_update n .skipped rcx) = _
      rw [scheduler_update_skipped, ih rcx hlen hcur]
      rfl
    | submit_out_of_date =>
      show observed_frame_indices n os (scheduler_update n .submit_out_of_date rcx) = _
      rw [scheduler_update_submit_ood n rcx (by omega)]
      rw [ih _ (by simpa using hlen) (by simpa using hcur)]
      rfl
    | completed =>
      show rcx.current_frame
            :: observed_frame_indices n os (scheduler_update n .completed rcx) = _
      rw [scheduler_update_completed n rcx (by omega)]
      rw [ih _ (by simpa using hlen) (by simpa using Nat.mod_lt _ hn)]
      show _ = (List.range (completed_count os + 1)).map fun k => (rcx.current_frame + k) % n
      rw [List.range_succ_eq_map, List.map_cons, List.map_map]
      refine congrArg₂ _ ?_ ?_
      · simpa using (Nat.mod_eq_of_lt hcur).symm
      · refine List.map_congr_left fun k _ => ?_
        simp only [Function.comp_apply]
        rw [Nat.mod_add_mod, Nat.add_assoc, Nat.add_comm 1 k]

/-- C1: for every in-flight slot count `N ≥ 1`, the frame indices used by the
completed updates of any run from startup form the cycle `0, 1, ..., N-1, 0, ...`
with no skips — the k-th completed update uses index `k % N` — no matter how
many intervening updates were skipped (minimized window) or lost their slot
signal to a submission-time `OutOfDate`; and every end-of-frame `drop` of a
completed update advances the current index by exactly one modulo `N`. -/
theorem frame_index_cycle (n : Nat) (hn : 1 ≤ n) (os : List UpdateOutcome) :
    observed_frame_indices n os (init_context n)
      = (List.range (completed_count os)).map (fun k => k % n)
    ∧ ∀ rcx : RenderContextN, rcx.current_frame < rcx.frames.length →
        (scheduler_update n .completed rcx).current_frame = (rcx.current_frame + 1) % n := by
  constructor
  · have h := observed_frame_indices_eq n hn os (init_context n)
      (by simp [init_context]) (by simpa [init_context] using hn)
    simpa [init_context] using h
  · intro rcx hcur
    rw [scheduler_update_completed n rcx hcur]

/-- C1 witness: with N = 2, the run completed/skipped/completed/completed
uses frame indices 0, 1, 0. -/
theorem frame_index_cycle_witness :
    observed_frame_indices 2 [.completed, .skipped, .completed, .completed]
      (init_context 2) = [0, 1, 0] := by
  rw [(frame_index_cycle 2 (by decide) [.completed, .skipped, .completed, .completed]).1]
  rfl

/-! ## C3: minimized or zero-size windows skip the frame -/

/-- A concrete render context for counterexamples and witnesses. -/
def rcx_ex : RenderContextS :=
  { swapchain_extent := (800, 600)
    viewport_extent := (800, 600)
    recreate_swapchain := false
    previous_frame_end := some () }

/-- C3 counterexample: with a minimized window `draw_frame` does skip — no
acquisition, no state mutation, `Ok` result — but it performs no CPU-yield
(sleep) action at all, so the claim's "the CPU is yielded briefly" is false
of the code. -/
theorem minimized_skip_counterexample :
    ¬ ((draw_frame ⟨true, 800, 600⟩ (800, 600) (.ok 0 false) .ok (some rcx_ex)).renderer
          = some rcx_ex
        ∧ (draw_frame ⟨true, 800, 600⟩ (800, 600) (.ok 0 false) .ok (some rcx_ex)).result
          = .ok ()
        ∧ Action.acquire_image
          ∉ (draw_frame ⟨true, 800, 600⟩ (800, 600) (.ok 0 false) .ok (some rcx_ex)).actions
        ∧ Action.yield_cpu
          ∈ (draw_frame ⟨true, 800, 600⟩ (800, 600) (.ok 0 false) .ok (some rcx_ex)).actions) := by
  intro h
  have hy := h.2.2.2
  simp [draw_frame] at hy

/-- C3 amended: when an update runs while the window is minimized or has zero
width or zero height, the frame is skipped entirely and successfully — the
renderer state is returned unchanged, the result is `Ok`, and no actions at
all are performed (in particular no image acquisition, and also no CPU
yield: the code returns immediately without sleeping). -/
theorem minimized_skip (window : Window) (window_size : Nat × Nat)
    (acq : AcquireResult) (sub : SubmitResult) (rcx? : Option RenderContextS)
    (h : window.is_minimized = true ∨ window.width = 0 ∨ window.height = 0) :
    (draw_frame window window_size acq sub rcx?).renderer = rcx?
    ∧ (draw_frame window window_size acq sub rcx?).result = .ok ()
    ∧ (draw_frame window window_size acq sub rcx?).actions = [] := by
  have hcond : (window.is_minimized || window.width == 0 || window.height == 0) = true := by
    rcases h with h | h | h <;> simp [h]
  refine ⟨?_, ?_, ?_⟩ <;> simp [draw_frame, hcond]

/-- C3 witness: a zero-width window skips the frame with no actions. -/
theorem minimized_skip_witness :
    (draw_frame ⟨false, 0, 600⟩ (0, 600) .out_of_date .ok (some rcx_ex)).renderer
      = some rcx_ex
    ∧ (draw_frame ⟨false, 0, 600⟩ (0, 600) .out_of_date .ok (some rcx_ex)).result = .ok ()
    ∧ (draw_frame ⟨false, 0, 600⟩ (0, 600) .out_of_date .ok (some rcx_ex)).actions = [] :=
  minimized_skip ⟨false, 0, 600⟩ (0, 600) .out_of_date .ok (some rcx_ex)
    (Or.inr (Or.inl rfl))

/-! ## C4: acquire-suboptimal still records and submits -/

/-- C4: when acquisition succeeds with `suboptimal = true` on a frame entered
with the recreate flag clear, the frame is still recorded, submitted and
presented (for every submission outcome); the flag is merely set for later,
and no swapchain rebuild happens during this frame.  Moreover, in any
`draw_frame` call whatsoever, a rebuild action occurs only if the flag was
already set at entry, and then as the first thing after the fence cleanup —
at the start of the frame, never mid-frame. -/
theorem acquire_suboptimal_still_submits (window : Window) (window_size : Nat × Nat)
    (idx : Nat) (sub : SubmitResult) (rcx : RenderContextS)
    (hmin : window.is_minimized = false) (hw : window.width ≠ 0) (hh : window.height ≠ 0)
    (hflag : rcx.recreate_swapchain = false) (hprev : rcx.previous_frame_end = some ()) :
    (draw_frame window window_size (.ok idx true) sub (some rcx)).actions
        = [.cleanup_finished, .acquire_image, .record_commands, .submit, .present_image]
    ∧ ((draw_frame window window_size (.ok idx true) sub (some rcx)).renderer).map
        (fun r => r.recreate_swapchain) = some true
    ∧ Action.recreate_swapchain
        ∉ (draw_frame window window_size (.ok idx true) sub (some rcx)).actions
    ∧ ∀ (window' : Window) (ws' : Nat × Nat) (acq' : AcquireResult) (sub' : SubmitResult)
        (rcx' : RenderContextS),
        Action.recreate_swapchain
            ∈ (draw_frame window' ws' acq' sub' (some rcx')).actions →
          rcx'.recreate_swapchain = true
          ∧ (draw_frame window' ws' acq' sub' (some rcx')).actions.take 2
              = [.cleanup_finished, .recreate_swapchain] := by
  have hcond : (window.is_minimized || window.width == 0 || window.height == 0) = false := by
    simp [hmin, hw, hh]
  refine ⟨?_, ?_, ?_, ?_⟩
  · cases sub <;> simp [draw_frame, hcond, hflag, hprev]
  · cases sub <;> simp [draw_frame, hcond, hflag, hprev]
  · cases sub <;> simp [draw_frame, hcond, hflag, hprev]
  · intro w' ws' acq' sub' rcx' hmem
    by_cases hm : (w'.is_minimized || w'.width == 0 || w'.height == 0) = true
    · simp [draw_frame, hm] at hmem
    · rw [Bool.not_eq_true] at hm
      rcases hpf : rcx'.previous_frame_end with _ | u
      · simp [draw_frame, hm, hpf] at hmem
      · by_cases hfl : rcx'.recreate_swapchain = true
        · refine ⟨hfl, ?_⟩
          cases acq' with
          | ok i' so' =>
            cases so' <;> cases sub' <;> simp [draw_frame, hm, hpf, hfl]
          | out_of_date => simp [draw_frame, hm, hpf, hfl]
          | other_error => simp [draw_frame, hm, hpf, hfl]
        · exfalso
          rw [Bool.not_eq_true] at hfl
          cases acq' with
          | ok i' so' =>
            cases so' <;> cases sub' <;> simp [draw_frame, hm, hpf, hfl] at hmem
          | out_of_date => simp [draw_frame, hm, hpf, hfl] at hmem
          | other_error => simp [draw_frame, hm, hpf, hfl] at hmem

/-- C4 witness: a concrete suboptimal-acquire frame records, submits and
presents, and sets the flag. -/
theorem acquire_suboptimal_witness :
    (draw_frame ⟨false, 800, 600⟩ (800, 600) (.ok 0 true) .ok (some rcx_ex)).actions
        = [.cleanup_finished, .acquire_image, .record_commands, .submit, .present_image]
    ∧ ((draw_frame ⟨false, 800, 600⟩ (800, 600) (.ok 0 true) .ok (some rcx_ex)).renderer).map
        (fun r => r.recreate_swapchain) = some true := by
  have h := acquire_suboptimal_still_submits ⟨false, 800, 600⟩ (800, 600) 0 .ok rcx_ex
    rfl (by decide) (by decide) rfl rfl
  exact ⟨h.1, h.2.1⟩

/-! ## C5: submission-time OutOfDate is non-fatal -/

/-- C5: when the submit/present chain of a recorded frame fails with
`OutOfDate`, `execute_command_buffer` returns `Ok`, sets the recreate flag,
and leaves the current slot's pending completion signal cleared (`None`);
any other submission error is returned to the caller as an error, with the
context untouched. -/
theorem submit_out_of_date_nonfatal (builder acquire_future : Option Unit)
    (rcx : RenderContextN) (hb : builder = some ()) (ha : acquire_future = some ())
    (hcur : rcx.current_frame < rcx.frames.length) :
    (execute_command_buffer builder acquire_future .out_of_date rcx).2 = .ok ()
    ∧ (execute_command_buffer builder acquire_future .out_of_date rcx).1.recreate_swapchain
        = true
    ∧ (execute_command_buffer builder acquire_future .out_of_date rcx).1.frames.get?
        rcx.current_frame = some ⟨none⟩
    ∧ ∀ rcx' : RenderContextN,
        (execute_command_buffer builder acquire_future .other_error rcx').2
            = .error "Failed to execute command buffer"
        ∧ (execute_command_buffer builder acquire_future .other_error rcx').1 = rcx' := by
  subst hb ha
  exact ⟨rfl, rfl, get?_set_of_lt _ _ _ hcur, fun rcx' => ⟨rfl, rfl⟩⟩

/-- A concrete two-slot render context for the C5 witness. -/
def rcxN_ex : RenderContextN :=
  { recreate_swapchain := false
    frames := [⟨some ()⟩, ⟨none⟩]
    current_frame := 0 }

/-- C5 witness: a concrete submission-time `OutOfDate` returns `Ok`, sets the
flag and clears slot 0. -/
theorem submit_out_of_date_witness :
    (execute_command_buffer (some ()) (some ()) .out_of_date rcxN_ex).2 = .ok ()
    ∧ (execute_command_buffer (some ()) (some ()) .out_of_date rcxN_ex).1.recreate_swapchain
        = true
    ∧ (execute_command_buffer (some ()) (some ()) .out_of_date rcxN_ex).1.frames.get? 0
        = some ⟨none⟩ := by
  have h := submit_out_of_date_nonfatal (some ()) (some ()) rcxN_ex rfl rfl (by decide)
  exact ⟨h.1, h.2.1, h.2.2.1⟩

/-! ## C8: physical-device selection -/

lemma min_by_key_first_eq_none {α : Type} (key : α → Nat) (l : List α) :
    min_by_key_first key l = none ↔ l = [] := by
  cases l with
  | nil => simp [min_by_key_first]
  | cons a l =>
    simp only [min_by_key_first]
    cases min_by_key_first key l <;> simp
    split <;> simp

lemma min_by_key_first_mem {α : Type} (key : α → Nat) (l : List α) (x : α)
    (h : min_by_key_first key l = some x) : x ∈ l := by
  induction l generalizing x with
  | nil => simp [min_by_key_first] at h
  | cons a l ih =>
    simp only [min_by_key_first] at h
    rcases hm : min_by_key_first key l with _ | y <;> rw [hm] at h <;> dsimp only at h
    · simp only [Option.some.injEq] at h
      simp [h]
    · by_cases hk : key a ≤ key y
      · rw [if_pos hk] at h
        simp only [Option.some.injEq] at h
        simp [h]
      · rw [if_neg hk] at h
        simp only [Option.some.injEq] at h
        exact List.mem_cons_of_mem a (h ▸ ih y hm)

lemma min_by_key_first_le {α : Type} (key : α → Nat) (l : List α) (x : α)
    (h : min_by_key_first key l = some x) : ∀ y ∈ l, key x ≤ key y := by
  induction l generalizing x with
  | nil => simp [min_by_key_first] at h
  | cons a l ih =>
    simp only [min_by_key_first] at h
    rcases hm : min_by_key_first key l with _ | z <;> rw [hm] at h <;> dsimp only at h
    · have hl : l = [] := (min_by_key_first_eq_none key l).mp hm
      simp only [Option.some.injEq] at h
      subst h hl
      simp
    · by_cases hk : key a ≤ key z
      · rw [if_pos hk] at h
        simp only [Option.some.injEq] at h
        subst h
        intro y hy
        rcases List.mem_cons.mp hy with hy | hy
        · exact hy ▸ Nat.le_refl _
        · exact Nat.le_trans hk (ih z hm y hy)
      · rw [if_neg hk] at h
        simp only [Option.some.injEq] at h
        subst h
        intro y hy
        rcases List.mem_cons.mp hy with hy | hy
        · exact hy ▸ Nat.le_of_lt (Nat.lt_of_not_le hk)
        · exact ih _ hm y hy

lemma position_graphics_present_spec (qs : List QueueFamily) : ∀ i j : Nat,
    position_graphics_present qs i = some j →
    ∃ q, qs.get? (j - i) = some q ∧ q.graphics = true ∧ q.present = true ∧ i ≤ j := by
  induction qs with
  | nil => intro i j h; simp [position_graphics_present] at h
  | cons q qs ih =>
    intro i j h
    simp only [position_graphics_present] at h
    by_cases hq : (q.graphics && q.present) = true
    · rw [if_pos hq] at h
      simp only [Option.some.injEq] at h
      subst h
      simp only [Bool.and_eq_true] at hq
      rcases hq with ⟨hg, hp⟩
      exact ⟨q, by simp, hg, hp, Nat.le_refl _⟩
    · rw [if_neg hq] at h
      obtain ⟨q', hget, hg, hp, hle⟩ := ih (i + 1) j h
      refine ⟨q', ?_, hg, hp, by omega⟩
      have hsub : j - i = (j - (i + 1)) + 1 := by omega
      rw [hsub]
      simpa using hget

lemma candidate_devices_mem (devices : List PhysicalDevice) (p : PhysicalDevice)
    (qi : Nat) (h : (p, qi) ∈ candidate_devices devices) :
    p ∈ devices ∧ p.supports_required_extensions = true
      ∧ find_queue_family p = some qi := by
  simp only [candidate_devices, List.mem_filterMap, List.mem_filter,
    Option.map_eq_some'] at h
  obtain ⟨a, ⟨ha, he⟩, i, hi, hpair⟩ := h
  obtain ⟨rfl, rfl⟩ := Prod.mk.injEq .. ▸ hpair
  exact ⟨ha, he, hi⟩

lemma candidate_devices_mem_of (devices : List PhysicalDevice) (p : PhysicalDevice)
    (qi : Nat) (hp : p ∈ devices) (he : p.supports_required_extensions = true)
    (hq : find_queue_family p = some qi) : (p, qi) ∈ candidate_devices devices := by
  simp only [candidate_devices, List.mem_filterMap, List.mem_filter]
  exact ⟨p, ⟨hp, he⟩, by simp [hq]⟩

/-- C8: device selection considers exactly the physical devices that support
the required extensions and have a queue family with both graphics support
and presentation support; when it selects, the chosen device is such a
candidate, the selected queue family has both capabilities, and the choice
has minimal rank under discrete < integrated < virtual < software (CPU); it
returns `none` exactly when no candidate exists, in which case
`VulkanRenderer::new` fails with the fatal "No suitable physical device
found" error. -/
theorem device_selection (devices : List PhysicalDevice) :
    (∀ p qi, select_physical_device devices = some (p, qi) →
      p ∈ devices
      ∧ p.supports_required_extensions = true
      ∧ (∃ q, p.queue_families.get? qi = some q ∧ q.graphics = true ∧ q.present = true)
      ∧ ∀ p' ∈ devices, p'.supports_required_extensions = true →
          (find_queue_family p').isSome →
          device_type_rank p.device_type ≤ device_type_rank p'.device_type)
    ∧ (select_physical_device devices = none ↔
        ∀ p ∈ devices, p.supports_required_extensions = true →
          find_queue_family p = none)
    ∧ (select_physical_device devices = none →
        select_physical_device_or_error devices
          = .error "No suitable physical device found")
    ∧ device_type_rank .discrete_gpu < device_type_rank .integrated_gpu
    ∧ device_type_rank .integrated_gpu < device_type_rank .virtual_gpu
    ∧ device_type_rank .virtual_gpu < device_type_rank .cpu := by
  refine ⟨?_, ?_, ?_, by decide, by decide, by decide⟩
  · intro p qi hsel
    have hmem := min_by_key_first_mem _ _ _ hsel
    obtain ⟨hp, he, hq⟩ := candidate_devices_mem devices p qi hmem
    obtain ⟨q, hget, hg, hpr, _⟩ := position_graphics_present_spec p.queue_families 0 qi hq
    refine ⟨hp, he, ⟨q, by simpa using hget, hg, hpr⟩, ?_⟩
    intro p' hp' he' hq'
    obtain ⟨qi', hqi'⟩ := Option.isSome_iff_exists.mp hq'
    exact min_by_key_first_le _ _ _ hsel (p', qi')
      (candidate_devices_mem_of devices p' qi' hp' he' hqi')
  · constructor
    · intro h p hp he
      have hnil : candidate_devices devices = [] := (min_by_key_first_eq_none _ _).mp h
      rw [candidate_devices, List.filterMap_eq_nil_iff] at hnil
      have := hnil p (List.mem_filter.mpr ⟨hp, he⟩)
      simpa using this
    · intro h
      apply (min_by_key_first_eq_none _ _).mpr
      rw [candidate_devices, List.filterMap_eq_nil_iff]
      intro p hp
      obtain ⟨hp1, hp2⟩ := List.mem_filter.mp hp
      simp [h p hp1 hp2]
  · intro h
    simp [select_physical_device_or_error, h]

/-- A concrete device list for the C8 witness: a software device, a discrete
GPU whose family 0 lacks presentation support, and an integrated GPU without
the required extensions. -/
def devs_ex : List PhysicalDevice :=
  [⟨.cpu, true, [⟨true, true⟩]⟩,
    ⟨.discrete_gpu, true, [⟨true, false⟩, ⟨true, true⟩]⟩,
    ⟨.integrated_gpu, false, [⟨true, true⟩]⟩]

/-- C8 witness: on `devs_ex` selection picks the discrete GPU with queue
family 1, which supports both graphics and presentation. -/
theorem device_selection_witness :
    select_physical_device devs_ex
        = some (⟨.discrete_gpu, true, [⟨true, false⟩, ⟨true, true⟩]⟩, 1)
    ∧ (⟨.discrete_gpu, true, [⟨true, false⟩, ⟨true, true⟩]⟩ : PhysicalDevice) ∈ devs_ex
    ∧ ∃ q, (⟨.discrete_gpu, true, [⟨true, false⟩, ⟨true, true⟩]⟩ :
          PhysicalDevice).queue_families.get? 1 = some q
        ∧ q.graphics = true ∧ q.present = true := by
  have hsel : select_physical_device devs_ex
      = some (⟨.discrete_gpu, true, [⟨true, false⟩, ⟨true, true⟩]⟩, 1) := by decide
  have h := (device_selection devs_ex).1 _ 1 hsel
  exact ⟨hsel, h.1, h.2.2.1⟩

end ElementsRs
